import Mathlib

/-!
# Craft: verification of the DIB → PSPEC → Onshape-variable pipeline

Shallow embedding of the deterministic core of the Craft repository:

* `src/cad/onshapeMapping.ts` (source file `part_013`): `roundMm`, `intInRange`,
  `enumCode`, `addVar`, `addFlag`, `mapPspecToOnshapeVariables`;
* `src/spec/pspecValidation.ts`: `validatePspecManufacturability`;
* `src/spec/generatePspec.ts`: `clearanceAll`, `generatePspecV0_1`;
* `src/pipeline/runMeta.ts` and the DIB-confirm / PSPEC-generate / approve
  routes: the pure ledger updates they perform;
* `src/dib/validateDib.ts` and `src/dib/questionSet.v0_1.ts`:
  `getByPointer`, `questionApplies`, `validateDibDraft`, and the drawers part
  of `toDibV0_1`.

JavaScript numbers are modelled as exact rationals (`ℚ`); `Math.round` is
floor of `q + 1/2`, which is the JS semantics (ties toward positive
infinity).  All claims are evaluated far from the magnitudes where IEEE-754
rounding of doubles could disagree with exact rational arithmetic.
-/

namespace Craft

/-- `Math.round` for JS numbers: nearest integer, ties toward `+∞`. -/
def roundMm (q : ℚ) : ℤ := ⌊q + 1/2⌋

/-- `Number.isInteger` on a finite JS number. -/
def isIntegerQ (q : ℚ) : Bool := q.den == 1

/-- A dynamically-typed JS value, as received by `addVar` (`value: unknown`).
`nanInf` stands for a value of `typeof === "number"` that is not finite
(`NaN`, `Infinity`); finite numbers are exact rationals. -/
inductive JsVal where
  | undef
  | jsNull
  | num (q : ℚ)
  | nanInf
  | boolVal (b : Bool)
  | strVal (s : String)

/-- `typeof` of a JS value (only the cases our values can take). -/
def JsVal.typeName : JsVal → String
  | .undef => "undefined"
  | .jsNull => "object"
  | .num _ => "number"
  | .nanInf => "number"
  | .boolVal _ => "boolean"
  | .strVal _ => "string"

/-- `args.value === undefined || args.value === null`. -/
def JsVal.isMissing : JsVal → Bool
  | .undef => true
  | .jsNull => true
  | _ => false

/-- `isFiniteNumber(value)`: the finite number carried by the value, if any. -/
def JsVal.asFiniteNumber : JsVal → Option ℚ
  | .num q => some q
  | _ => none

/-- `intInRange(value, min, max)` from the mapper. -/
def intInRange (value mn mx : ℚ) : Bool :=
  isIntegerQ value && decide (mn ≤ value) && decide (value ≤ mx)

/-- `enumCode(value, mapping)`: fixed string → integer code table lookup. -/
def enumCode (value : String) (mapping : List (String × ℤ)) : Option ℤ :=
  mapping.lookup value

/-! ## PSPEC data model (`src/spec/pspecTypes.ts`) -/

structure DimsMm where
  width_mm : ℚ
  height_mm : ℚ
  depth_mm : ℚ

structure ClearanceMm where
  left_mm : ℚ
  right_mm : ℚ
  top_mm : ℚ
  bottom_mm : ℚ
  front_mm : ℚ
  rear_mm : ℚ

structure MaterialSpec where
  type : String
  thickness_mm : ℚ
  notes : Option String := none

structure IsolationSpec where
  strategy : String
  notes : Option String := none

structure ConstraintsSpec where
  back_clearance_mm : ℚ

structure AccessSpec where
  rear_service_hatch : Bool

structure DrawersSpec where
  count : ℚ
  lp_capacity_target : ℚ

structure SpeakersComponent where
  count : ℚ
  enclosure_type : String
  external_mm : DimsMm
  weight_kg : ℚ
  clearance_mm : ClearanceMm
  isolation : IsolationSpec

structure TurntableComponent where
  external_mm : DimsMm
  isolation : Bool
  clearance_mm : ClearanceMm

structure AmplifierComponent where
  external_mm : DimsMm
  ventilation_direction : String
  clearance_mm : ClearanceMm

structure PspecComponents where
  speakers : SpeakersComponent
  turntable : TurntableComponent
  amplifier : AmplifierComponent
  drawers : DrawersSpec

/-- CRG (reference geometry) metadata recorded in the ledger; the format is
one of the four allowed extensions, kept as a string. -/
structure CrgMeta where
  original_filename : String
  format : String
  bytes : ℚ
  sha256 : String
  uploaded_at : String

structure PspecInputsDib where
  revision : ℤ
  sha256 : String
  confirmed_at : String

structure PspecInputs where
  crg : CrgMeta
  dib : PspecInputsDib

/-- `PspecV0_1`.  Constant discriminators (`pspec_version`, `units`, the
archetype block) are kept as string fields; enum-typed fields
(`material.type`, `ventilation_direction`, `output_profile`) are strings as
in the validation paths of the source. -/
structure PspecV0_1 where
  pspec_version : String
  project_id : String
  revision : ℤ
  created_at : String
  units : String
  archetype_id : String
  archetype_version : String
  speaker_enclosure_type : String
  inputs : PspecInputs
  overall : DimsMm
  material : MaterialSpec
  constraints : ConstraintsSpec
  access : AccessSpec
  output_profile : String
  components : PspecComponents

/-! ## Onshape variable mapper (`src/cad/onshapeMapping.ts`) -/

def ONSHAPE_TEMPLATE_CONTRACT_VERSION : String := "0.1.0"

inductive OnshapeVariableUnit where
  | mm
  | count
  | flag
  | enum
deriving DecidableEq

inductive OnshapeVariableSource where
  | DIB
  | DEFAULT
  | DERIVED
deriving DecidableEq

structure OnshapeVariableProvenance where
  var : String
  value : ℤ
  unit : OnshapeVariableUnit
  source : OnshapeVariableSource
  pspecPath : String
  notes : Option String := none
deriving DecidableEq

inductive OnshapeMappingErrorCode where
  | MISSING_FIELD
  | INVALID_VALUE
  | OUT_OF_RANGE
deriving DecidableEq

structure OnshapeMappingError where
  code : OnshapeMappingErrorCode
  var : String
  pspecPath : Option String := none
  message : String
deriving DecidableEq

/-- The discriminated union returned by the mapper.  As in the source, the
failure variant carries only the error list, and the success variant carries
only the variables and the provenance (the constant `contract_version` field
is `ONSHAPE_TEMPLATE_CONTRACT_VERSION` on both variants and is not repeated
here).  Variable values are integers: every successful `addVar`/`addFlag`
stores an integer-valued number. -/
inductive OnshapeMappingResult where
  | ok (vars : List (String × ℤ)) (provenance : List OnshapeVariableProvenance)
  | err (errors : List OnshapeMappingError)
deriving DecidableEq

/-- Declared `[min, max]` range of a variable. -/
structure MmRange where
  min : ℚ
  max : ℚ
deriving DecidableEq

def mmPos : MmRange := ⟨1, 10000⟩
def mmClr : MmRange := ⟨0, 2000⟩

/-- The argument record of `addVar` (field order: `var`, `unit`, `source`,
`pspecPath`, `value`, `range`, `rounding`, `notes`; `roundingMm = true`
stands for `rounding: "mm"`). -/
structure AddVarArgs where
  var : String
  unit : OnshapeVariableUnit
  source : OnshapeVariableSource
  pspecPath : String
  value : JsVal
  range : Option MmRange := none
  roundingMm : Bool := false
  notes : Option String := none

/-- The argument record of `addFlag`. -/
structure AddFlagArgs where
  var : String
  source : OnshapeVariableSource
  pspecPath : String
  value : JsVal
  notes : Option String := none

/-- The per-variable check performed by `addVar`, in source order: missing
field, finite number, optional mm rounding, integer check, optional range
check.  Returns the integer to store, or the error that `addError` records. -/
def checkVar (a : AddVarArgs) : Except OnshapeMappingError ℤ :=
  if a.value.isMissing then
    .error ⟨.MISSING_FIELD, a.var, some a.pspecPath, "Missing required PSPEC field."⟩
  else
    match a.value.asFiniteNumber with
    | none =>
        .error ⟨.INVALID_VALUE, a.var, some a.pspecPath,
          "Expected a finite number, got " ++ a.value.typeName ++ "."⟩
    | some q =>
        let n : ℚ := if a.roundingMm then ((roundMm q : ℤ) : ℚ) else q
        if isIntegerQ n then
          match a.range with
          | some r =>
              if intInRange n r.min r.max then
                .ok n.num
              else
                .error ⟨.OUT_OF_RANGE, a.var, some a.pspecPath,
                  "Value " ++ toString n ++ " is outside allowed range " ++
                    toString r.min ++ "…" ++ toString r.max ++ "."⟩
          | none => .ok n.num
        else
          .error ⟨.INVALID_VALUE, a.var, some a.pspecPath, "Expected an integer value."⟩

/-- The per-variable check performed by `addFlag`: missing field, then
boolean type; booleans are encoded as `1`/`0`. -/
def checkFlag (f : AddFlagArgs) : Except OnshapeMappingError ℤ :=
  if f.value.isMissing then
    .error ⟨.MISSING_FIELD, f.var, some f.pspecPath, "Missing required PSPEC field."⟩
  else
    match f.value with
    | .boolVal b => .ok (if b then 1 else 0)
    | _ => .error ⟨.INVALID_VALUE, f.var, some f.pspecPath, "Expected a boolean value."⟩

/-- The mutable accumulators of `mapPspecToOnshapeVariables` (`errors`,
`variables`, `provenance`); pushes happen at the tail. -/
structure MapState where
  errors : List OnshapeMappingError
  vars : List (String × ℤ)
  provenance : List OnshapeVariableProvenance

/-- One call performed by the mapper body: an `addVar` call, an `addFlag`
call, or a bare `addError` call (the two enum-code failure branches). -/
inductive MapStep where
  | svar (a : AddVarArgs)
  | sflag (f : AddFlagArgs)
  | serr (e : OnshapeMappingError)

/-- Effect of one mapper call on the accumulators: an error appends to
`errors` and adds nothing else; a passing check appends the variable and its
provenance entry. -/
def applyStep (st : MapStep) (s : MapState) : MapState :=
  match st with
  | .svar a =>
      match checkVar a with
      | .error e => { s with errors := s.errors ++ [e] }
      | .ok n =>
          { s with
            vars := s.vars ++ [(a.var, n)],
            provenance := s.provenance ++ [⟨a.var, n, a.unit, a.source, a.pspecPath, a.notes⟩] }
  | .sflag f =>
      match checkFlag f with
      | .error e => { s with errors := s.errors ++ [e] }
      | .ok n =>
          { s with
            vars := s.vars ++ [(f.var, n)],
            provenance := s.provenance ++ [⟨f.var, n, .flag, f.source, f.pspecPath, f.notes⟩] }
  | .serr e => { s with errors := s.errors ++ [e] }

def runSteps (l : List MapStep) (s : MapState) : MapState :=
  l.foldl (fun s st => applyStep st s) s

/-- The error recorded by a mapper call, if its check fails. -/
def stepError : MapStep → Option OnshapeMappingError
  | .svar a => match checkVar a with | .error e => some e | .ok _ => none
  | .sflag f => match checkFlag f with | .error e => some e | .ok _ => none
  | .serr e => some e

/-- The `(name, value)` pair stored by a mapper call, if its check passes. -/
def stepEntry : MapStep → Option (String × ℤ)
  | .svar a => match checkVar a with | .ok n => some (a.var, n) | .error _ => none
  | .sflag f => match checkFlag f with | .ok n => some (f.var, n) | .error _ => none
  | .serr _ => none

/-- The provenance entry recorded by a mapper call, if its check passes. -/
def stepProv : MapStep → Option OnshapeVariableProvenance
  | .svar a =>
      match checkVar a with
      | .ok n => some ⟨a.var, n, a.unit, a.source, a.pspecPath, a.notes⟩
      | .error _ => none
  | .sflag f =>
      match checkFlag f with
      | .ok n => some ⟨f.var, n, .flag, f.source, f.pspecPath, f.notes⟩
      | .error _ => none
  | .serr _ => none

/-- A mapper call whose check fails. -/
def stepFails (st : MapStep) : Bool := (stepError st).isSome

/-- Insertion step of the deterministic by-variable-name sort
(`(a, b) => a.var.localeCompare(b.var)` on ASCII identifiers is code-unit
string order). -/
def insertByVar {α : Type} (key : α → String) (e : α) : List α → List α
  | [] => [e]
  | h :: t => if (compare (key e) (key h)).isLE then e :: h :: t else h :: insertByVar key e t

/-- Deterministic sort by variable name used for both the error list and the
provenance list. -/
def sortByVar {α : Type} (key : α → String) : List α → List α
  | [] => []
  | h :: t => insertByVar key h (sortByVar key t)

def speakerClrNote : String :=
  "Derived in PSPEC v0.1: clearance_mm is applied equally to all sides from DIB speakers.required_clearance_mm."

def ampClrNote : String :=
  "Derived in PSPEC v0.1: clearance_mm is applied equally to all sides from DIB amplifier.required_clearance_mm."

def ttClrNote : String :=
  "Default in PSPEC v0.1: turntable clearance_mm is always 0."

/-- The first block of `addVar` calls: overall dimensions, back clearance,
the derived available depth (note: rounded after subtraction), and material
thickness. -/
def overallSteps (p : PspecV0_1) : List MapStep :=
  [ .svar ⟨"OVERALL_W", .mm, .DIB, "/overall/width_mm", .num p.overall.width_mm, some mmPos, true, none⟩,
    .svar ⟨"OVERALL_H", .mm, .DIB, "/overall/height_mm", .num p.overall.height_mm, some mmPos, true, none⟩,
    .svar ⟨"OVERALL_D", .mm, .DIB, "/overall/depth_mm", .num p.overall.depth_mm, some mmPos, true, none⟩,
    .svar ⟨"OVERALL_BACK_CLEARANCE", .mm, .DIB, "/constraints/back_clearance_mm",
      .num p.constraints.back_clearance_mm, some mmClr, true, none⟩,
    .svar ⟨"OVERALL_AVAILABLE_DEPTH", .mm, .DERIVED,
      "DERIVED: /overall/depth_mm - /constraints/back_clearance_mm",
      .num (p.overall.depth_mm - p.constraints.back_clearance_mm), some ⟨1, 10000⟩, true,
      some "Derived: round(overall.depth_mm - constraints.back_clearance_mm)."⟩,
    .svar ⟨"MAT_THICKNESS", .mm, .DIB, "/material/thickness_mm", .num p.material.thickness_mm,
      some ⟨1, 2000⟩, true, none⟩ ]

def matTypeMapping : List (String × ℤ) :=
  [("plywood", 0), ("mdf", 1), ("veneer_plywood", 2), ("other", 3)]

/-- The `MAT_TYPE_CODE` block: unrecognized enum values record a bare
`INVALID_VALUE` error, recognized ones go through `addVar`. -/
def matTypeSteps (p : PspecV0_1) : List MapStep :=
  match enumCode p.material.type matTypeMapping with
  | none =>
      [ .serr ⟨.INVALID_VALUE, "MAT_TYPE_CODE", some "/material/type",
          "Unexpected material.type: \"" ++ p.material.type ++ "\"."⟩ ]
  | some c =>
      [ .svar ⟨"MAT_TYPE_CODE", .enum, .DIB, "/material/type", .num (c : ℚ), some ⟨0, 3⟩, false, none⟩ ]

/-- One iteration of the `for (const side of ["L", "R"])` loop. -/
def spkSteps (p : PspecV0_1) (side : String) : List MapStep :=
  [ .svar ⟨"SPK_" ++ side ++ "_W", .mm, .DIB, "/components/speakers/external_mm/width_mm",
      .num p.components.speakers.external_mm.width_mm, some mmPos, true, none⟩,
    .svar ⟨"SPK_" ++ side ++ "_H", .mm, .DIB, "/components/speakers/external_mm/height_mm",
      .num p.components.speakers.external_mm.height_mm, some mmPos, true, none⟩,
    .svar ⟨"SPK_" ++ side ++ "_D", .mm, .DIB, "/components/speakers/external_mm/depth_mm",
      .num p.components.speakers.external_mm.depth_mm, some mmPos, true, none⟩,
    .svar ⟨"SPK_" ++ side ++ "_CLR_L", .mm, .DERIVED, "/components/speakers/clearance_mm/left_mm",
      .num p.components.speakers.clearance_mm.left_mm, some mmClr, true, some speakerClrNote⟩,
    .svar ⟨"SPK_" ++ side ++ "_CLR_R", .mm, .DERIVED, "/components/speakers/clearance_mm/right_mm",
      .num p.components.speakers.clearance_mm.right_mm, some mmClr, true, some speakerClrNote⟩,
    .svar ⟨"SPK_" ++ side ++ "_CLR_T", .mm, .DERIVED, "/components/speakers/clearance_mm/top_mm",
      .num p.components.speakers.clearance_mm.top_mm, some mmClr, true, some speakerClrNote⟩,
    .svar ⟨"SPK_" ++ side ++ "_CLR_B", .mm, .DERIVED, "/components/speakers/clearance_mm/bottom_mm",
      .num p.components.speakers.clearance_mm.bottom_mm, some mmClr, true, some speakerClrNote⟩,
    .svar ⟨"SPK_" ++ side ++ "_CLR_F", .mm, .DERIVED, "/components/speakers/clearance_mm/front_mm",
      .num p.components.speakers.clearance_mm.front_mm, some mmClr, true, some speakerClrNote⟩,
    .svar ⟨"SPK_" ++ side ++ "_CLR_REAR", .mm, .DERIVED, "/components/speakers/clearance_mm/rear_mm",
      .num p.components.speakers.clearance_mm.rear_mm, some mmClr, true, some speakerClrNote⟩ ]

def ttSteps (p : PspecV0_1) : List MapStep :=
  [ .svar ⟨"TURNTABLE_W", .mm, .DIB, "/components/turntable/external_mm/width_mm",
      .num p.components.turntable.external_mm.width_mm, some mmPos, true, none⟩,
    .svar ⟨"TURNTABLE_H", .mm, .DIB, "/components/turntable/external_mm/height_mm",
      .num p.components.turntable.external_mm.height_mm, some mmPos, true, none⟩,
    .svar ⟨"TURNTABLE_D", .mm, .DIB, "/components/turntable/external_mm/depth_mm",
      .num p.components.turntable.external_mm.depth_mm, some mmPos, true, none⟩,
    .svar ⟨"TURNTABLE_CLR_L", .mm, .DEFAULT, "/components/turntable/clearance_mm/left_mm",
      .num p.components.turntable.clearance_mm.left_mm, some mmClr, true, some ttClrNote⟩,
    .svar ⟨"TURNTABLE_CLR_R", .mm, .DEFAULT, "/components/turntable/clearance_mm/right_mm",
      .num p.components.turntable.clearance_mm.right_mm, some mmClr, true, some ttClrNote⟩,
    .svar ⟨"TURNTABLE_CLR_T", .mm, .DEFAULT, "/components/turntable/clearance_mm/top_mm",
      .num p.components.turntable.clearance_mm.top_mm, some mmClr, true, some ttClrNote⟩,
    .svar ⟨"TURNTABLE_CLR_B", .mm, .DEFAULT, "/components/turntable/clearance_mm/bottom_mm",
      .num p.components.turntable.clearance_mm.bottom_mm, some mmClr, true, some ttClrNote⟩,
    .svar ⟨"TURNTABLE_CLR_F", .mm, .DEFAULT, "/components/turntable/clearance_mm/front_mm",
      .num p.components.turntable.clearance_mm.front_mm, some mmClr, true, some ttClrNote⟩,
    .svar ⟨"TURNTABLE_CLR_REAR", .mm, .DEFAULT, "/components/turntable/clearance_mm/rear_mm",
      .num p.components.turntable.clearance_mm.rear_mm, some mmClr, true, some ttClrNote⟩ ]

def ampSteps (p : PspecV0_1) : List MapStep :=
  [ .svar ⟨"AMP_W", .mm, .DIB, "/components/amplifier/external_mm/width_mm",
      .num p.components.amplifier.external_mm.width_mm, some mmPos, true, none⟩,
    .svar ⟨"AMP_H", .mm, .DIB, "/components/amplifier/external_mm/height_mm",
      .num p.components.amplifier.external_mm.height_mm, some mmPos, true, none⟩,
    .svar ⟨"AMP_D", .mm, .DIB, "/components/amplifier/external_mm/depth_mm",
      .num p.components.amplifier.external_mm.depth_mm, some mmPos, true, none⟩,
    .svar ⟨"AMP_CLR_L", .mm, .DERIVED, "/components/amplifier/clearance_mm/left_mm",
      .num p.components.amplifier.clearance_mm.left_mm, some mmClr, true, some ampClrNote⟩,
    .svar ⟨"AMP_CLR_R", .mm, .DERIVED, "/components/amplifier/clearance_mm/right_mm",
      .num p.components.amplifier.clearance_mm.right_mm, some mmClr, true, some ampClrNote⟩,
    .svar ⟨"AMP_CLR_T", .mm, .DERIVED, "/components/amplifier/clearance_mm/top_mm",
      .num p.components.amplifier.clearance_mm.top_mm, some mmClr, true, some ampClrNote⟩,
    .svar ⟨"AMP_CLR_B", .mm, .DERIVED, "/components/amplifier/clearance_mm/bottom_mm",
      .num p.components.amplifier.clearance_mm.bottom_mm, some mmClr, true, some ampClrNote⟩,
    .svar ⟨"AMP_CLR_F", .mm, .DERIVED, "/components/amplifier/clearance_mm/front_mm",
      .num p.components.amplifier.clearance_mm.front_mm, some mmClr, true, some ampClrNote⟩,
    .svar ⟨"AMP_CLR_REAR", .mm, .DERIVED, "/components/amplifier/clearance_mm/rear_mm",
      .num p.components.amplifier.clearance_mm.rear_mm, some mmClr, true, some ampClrNote⟩ ]

def ventDirMapping : List (String × ℤ) :=
  [("front", 0), ("rear", 1), ("up", 2), ("left", 3), ("right", 4)]

def ventSteps (p : PspecV0_1) : List MapStep :=
  match enumCode p.components.amplifier.ventilation_direction ventDirMapping with
  | none =>
      [ .serr ⟨.INVALID_VALUE, "AMP_VENT_DIR_CODE", some "/components/amplifier/ventilation_direction",
          "Unexpected amplifier.ventilation_direction: \"" ++
            p.components.amplifier.ventilation_direction ++ "\"."⟩ ]
  | some c =>
      [ .svar ⟨"AMP_VENT_DIR_CODE", .enum, .DIB, "/components/amplifier/ventilation_direction",
          .num (c : ℚ), some ⟨0, 4⟩, false, none⟩ ]

def drawerAccessSteps (p : PspecV0_1) : List MapStep :=
  [ .svar ⟨"DRAWER_COUNT", .count, .DIB, "/components/drawers/count",
      .num p.components.drawers.count, some ⟨0, 6⟩, false, none⟩,
    .svar ⟨"DRAWER_LP_CAP_TARGET", .count, .DIB, "/components/drawers/lp_capacity_target",
      .num p.components.drawers.lp_capacity_target, some ⟨0, 3000⟩, false, none⟩,
    .sflag ⟨"ACCESS_REAR_SERVICE_HATCH", .DIB, "/access/rear_service_hatch",
      .boolVal p.access.rear_service_hatch, none⟩ ]

/-- The full ordered sequence of mapper calls in the body of
`mapPspecToOnshapeVariables`. -/
def steps (p : PspecV0_1) : List MapStep :=
  overallSteps p ++ matTypeSteps p ++ spkSteps p "L" ++ spkSteps p "R" ++
    ttSteps p ++ ampSteps p ++ ventSteps p ++ drawerAccessSteps p

/-- `mapPspecToOnshapeVariables`: run every check in one pass, then return
either all accumulated errors (sorted by variable name) or the variable map
with its provenance list (provenance sorted by variable name). -/
def mapPspecToOnshapeVariables (p : PspecV0_1) : OnshapeMappingResult :=
  let s := runSteps (steps p) ⟨[], [], []⟩
  if s.errors.isEmpty then
    .ok s.vars (sortByVar (fun pr => pr.var) s.provenance)
  else
    .err (sortByVar (fun e => e.var) s.errors)

/-! ## Manufacturability validator (`src/spec/pspecValidation.ts`) -/

/-- Result of `validatePspecManufacturability`:
`{ ok: true } | { ok: false; errors: string[] }`. -/
inductive ManufResult where
  | ok
  | err (errors : List String)
deriving DecidableEq

/-- `envDepth(componentDepth, front, rear)`. -/
def envDepth (componentDepth front rear : ℚ) : ℚ := componentDepth + front + rear

def minLpDrawerDepthMm : ℚ := 330

/-- `validatePspecManufacturability`, with the error strings pushed in source
order: the strict-positivity check on the available depth first, then (only
when the available depth is positive) the three component envelope checks and
the LP-drawer depth check. -/
def validatePspecManufacturability (p : PspecV0_1) : ManufResult :=
  let availableDepth := p.overall.depth_mm - p.constraints.back_clearance_mm
  let deepErrors : List String :=
    if ¬ (availableDepth > 0) then
      ["overall.depth_mm must exceed constraints.back_clearance_mm."]
    else []
  let blockErrors : List String :=
    if availableDepth > 0 then
      (if envDepth p.components.speakers.external_mm.depth_mm
            p.components.speakers.clearance_mm.front_mm
            p.components.speakers.clearance_mm.rear_mm > availableDepth then
          ["Speakers exceed available depth (overall.depth_mm - back_clearance_mm) when clearances are applied."]
        else []) ++
      (if envDepth p.components.amplifier.external_mm.depth_mm
            p.components.amplifier.clearance_mm.front_mm
            p.components.amplifier.clearance_mm.rear_mm > availableDepth then
          ["Amplifier exceeds available depth (overall.depth_mm - back_clearance_mm) when clearances are applied."]
        else []) ++
      (if envDepth p.components.turntable.external_mm.depth_mm
            p.components.turntable.clearance_mm.front_mm
            p.components.turntable.clearance_mm.rear_mm > availableDepth then
          ["Turntable exceeds available depth (overall.depth_mm - back_clearance_mm) when clearances are applied."]
        else []) ++
      (if p.components.drawers.count > 0 then
          (if availableDepth < minLpDrawerDepthMm then
            ["Drawers requested, but available depth (" ++ toString availableDepth ++
              "mm) is less than minimum LP drawer depth (" ++ toString minLpDrawerDepthMm ++ "mm)."]
          else [])
        else [])
    else []
  let errors := deepErrors ++ blockErrors
  if errors.isEmpty then .ok else .err errors

/-! ## DIB data model and PSPEC synthesis (`src/dib/dibStorage.ts`,
`src/spec/generatePspec.ts`) -/

structure DibAssumptions where
  archetype_confirmed : Bool
  sealed_speakers_confirmed : Bool

structure DibSpeakers where
  external_mm : DimsMm
  weight_kg : ℚ
  required_clearance_mm : ℚ
  isolation : IsolationSpec

structure DibTurntable where
  external_mm : DimsMm
  isolation : Bool

structure DibAmplifier where
  external_mm : DimsMm
  ventilation_direction : String
  required_clearance_mm : ℚ

/-- `DibV0_1` from `src/dib/dibStorage.ts`. -/
structure DibV0_1 where
  dib_version : String
  project_id : String
  revision : ℤ
  created_at : String
  confirmed_at : String
  assumptions : DibAssumptions
  overall : DimsMm
  constraints : ConstraintsSpec
  access : AccessSpec
  material : MaterialSpec
  speakers : DibSpeakers
  turntable : DibTurntable
  amplifier : DibAmplifier
  drawers : DrawersSpec
  output_profile : String
  confirmed : Bool

/-- `clearanceAll(mm)`: one scalar applied to all six sides. -/
def clearanceAll (mm : ℚ) : ClearanceMm := ⟨mm, mm, mm, mm, mm, mm⟩

/-- The argument record of `generatePspecV0_1`. -/
structure GeneratePspecArgs where
  projectId : String
  revision : ℤ
  createdAtIso : String
  crg : CrgMeta
  dib : DibV0_1
  dibSha256 : String

/-- `generatePspecV0_1`: pure synthesis of a PSPEC from a confirmed DIB and
CRG metadata.  Speaker and amplifier clearances are derived from the single
DIB scalar via `clearanceAll`; the turntable clearance is the all-zero
default; `overall`, `material`, `constraints` and `access` are copied
verbatim. -/
def generatePspecV0_1 (args : GeneratePspecArgs) : PspecV0_1 :=
  let speakerClearance := clearanceAll args.dib.speakers.required_clearance_mm
  let ampClearance := clearanceAll args.dib.amplifier.required_clearance_mm
  { pspec_version := "0.1.0"
    project_id := args.projectId
    revision := args.revision
    created_at := args.createdAtIso
    units := "mm"
    archetype_id := "record_console"
    archetype_version := "0.1"
    speaker_enclosure_type := "sealed"
    inputs :=
      { crg :=
          { original_filename := args.crg.original_filename
            format := args.crg.format
            bytes := args.crg.bytes
            sha256 := args.crg.sha256
            uploaded_at := args.crg.uploaded_at }
        dib :=
          { revision := args.dib.revision
            sha256 := args.dibSha256
            confirmed_at := args.dib.confirmed_at } }
    overall := args.dib.overall
    material := args.dib.material
    constraints := args.dib.constraints
    access := args.dib.access
    output_profile := args.dib.output_profile
    components :=
      { speakers :=
          { count := 2
            enclosure_type := "sealed"
            external_mm := args.dib.speakers.external_mm
            weight_kg := args.dib.speakers.weight_kg
            clearance_mm := speakerClearance
            isolation := args.dib.speakers.isolation }
        turntable :=
          { external_mm := args.dib.turntable.external_mm
            isolation := args.dib.turntable.isolation
            clearance_mm := clearanceAll 0 }
        amplifier :=
          { external_mm := args.dib.amplifier.external_mm
            ventilation_direction := args.dib.amplifier.ventilation_direction
            clearance_mm := ampClearance }
        drawers := args.dib.drawers } }

/-! ## RunMetadata ledger and its updates (`src/pipeline/runMeta.ts`, the
DIB-confirm route, `pspec/generate` and `pspec/approve` routes) -/

/-- Project-level approval pointer states. -/
inductive ProjectApprovalState where
  | none
  | pending
  | approved
  | rejected
deriving DecidableEq

/-- Per-PSPEC-revision approval states. -/
inductive RevisionApprovalState where
  | pending
  | approved
  | rejected
deriving DecidableEq

/-- The project-level approval pointer `meta.pspec.approval`. -/
structure ProjectApproval where
  state : ProjectApprovalState
  revision : Option ℤ
  decided_at : Option String
deriving DecidableEq

/-- The per-revision approval record `entry.approval`. -/
structure RevisionApproval where
  state : RevisionApprovalState
  decided_at : Option String
deriving DecidableEq

structure DibRevisionEntry where
  revision : ℤ
  sha256 : String
  confirmed_at : String
deriving DecidableEq

structure PspecRevisionEntry where
  revision : ℤ
  sha256 : String
  summary_md_sha256 : String
  created_at : String
  dib_revision : ℤ
  dib_sha256 : String
  crg_sha256 : String
  approval : RevisionApproval
deriving DecidableEq

structure DibLedger where
  latest_revision : ℤ
  revisions : List DibRevisionEntry
deriving DecidableEq

structure PspecLedger where
  latest_revision : ℤ
  revisions : List PspecRevisionEntry
  approval : ProjectApproval
deriving DecidableEq

/-- The mutable per-project ledger `RunMeta` (constant `meta_version` and
`schema_versions` omitted; `crg` is the optional geometry provenance). -/
structure RunMeta where
  project_id : String
  project_name : Option String
  created_at : String
  updated_at : String
  crg : Option CrgMeta
  dib : DibLedger
  pspec : PspecLedger

/-- `normalizeProjectName`. -/
def normalizeProjectName : Option String → Option String
  | Option.none => Option.none
  | some name =>
      let trimmed := name.trim
      if trimmed = "" then Option.none
      else if trimmed.length > 120 then some (trimmed.take 120) else some trimmed

/-- `initRunMeta`: the fresh ledger for a project (both revision counters at
`0`, no revisions, approval pointer `none`). -/
def initRunMeta (projectId : String) (nowIso : String) (projectName : Option String) : RunMeta :=
  { project_id := projectId
    project_name := normalizeProjectName projectName
    created_at := nowIso
    updated_at := nowIso
    crg := Option.none
    dib := { latest_revision := 0, revisions := [] }
    pspec :=
      { latest_revision := 0
        revisions := []
        approval := ⟨.none, Option.none, Option.none⟩ } }

/-- The ledger update performed by the DIB-confirm route (`part_003`, POST)
after the draft passed validation: assign `revision = latest + 1`, append the
revision summary, and reset the project approval pointer to
`{state: none, revision: null}`.  Returns the updated ledger and the assigned
revision number. -/
def dibConfirmLedgerUpdate (meta : RunMeta) (now dibSha : String) : RunMeta × ℤ :=
  let revision := meta.dib.latest_revision + 1
  ({ meta with
      updated_at := now
      dib :=
        { latest_revision := revision
          revisions := meta.dib.revisions ++ [⟨revision, dibSha, now⟩] }
      pspec := { meta.pspec with approval := ⟨.none, Option.none, Option.none⟩ } },
    revision)

/-- Sequential DIB confirmations: one `(now, sha)` pair per confirmed draft. -/
def dibConfirmSeq (meta : RunMeta) : List (String × String) → RunMeta
  | [] => meta
  | (now, sha) :: rest => dibConfirmSeq (dibConfirmLedgerUpdate meta now sha).1 rest

/-- `revisions.find(...)` followed by an in-place mutation of the found
entry: update the first list element satisfying `p`, if any. -/
def updateFirst {α : Type} (p : α → Bool) (f : α → α) : List α → List α
  | [] => []
  | a :: t => if p a then f a :: t else a :: updateFirst p f t

/-- The `pspec/approve` route: refuse when no PSPEC exists, otherwise set the
project pointer and the latest revision entry (the first entry with that
revision number) to `approved` with the decision timestamp. -/
def pspecApprove (meta : RunMeta) (now : String) : Except String RunMeta :=
  if meta.pspec.latest_revision < 1 then .error "No PSPEC to approve."
  else
    let rev := meta.pspec.latest_revision
    .ok { meta with
      updated_at := now
      pspec := { meta.pspec with
        approval := ⟨.approved, some rev, some now⟩
        revisions :=
          updateFirst (fun r => r.revision == rev)
            (fun r => { r with approval := ⟨.approved, some now⟩ }) meta.pspec.revisions } }

/-- Modelled from the spec: the `pspec/reject` route handler
(`src/app/api/projects/[projectId]/pspec/reject/route.ts`) is not under
`src/`; only its caller (`src/ui/PspecReview.tsx`) is.  Per the spec,
rejecting is symmetric to approving but sets `rejected`: both the
project-level pointer and the specific revision entry are set to `rejected`
with a decision timestamp. -/
def pspecReject (meta : RunMeta) (now : String) : Except String RunMeta :=
  if meta.pspec.latest_revision < 1 then .error "No PSPEC to reject."
  else
    let rev := meta.pspec.latest_revision
    .ok { meta with
      updated_at := now
      pspec := { meta.pspec with
        approval := ⟨.rejected, some rev, some now⟩
        revisions :=
          updateFirst (fun r => r.revision == rev)
            (fun r => { r with approval := ⟨.rejected, some now⟩ }) meta.pspec.revisions } }

/-- Inputs of the `pspec/generate` route that come from outside the ledger:
the stored latest DIB (`readLatestDib`), the content hashes (computed by the
external crypto collaborator), and the outcome of the external AJV schema
validation. -/
structure PspecGenerateDeps where
  latestDib : Option DibV0_1
  dibSha256 : String
  schemaErrors : List String
  pspecSha256 : String
  summaryMdSha256 : String

/-- The `pspec/generate` route (`src/app/api/.../pspec/generate/route.ts`):
guards (CRG uploaded, DIB confirmed, `dib.json` readable), synthesis via
`generatePspecV0_1` with `revision = pspec.latest_revision + 1`, the three
validations, then the ledger update: append the revision entry with a
`pending` approval record and point the project approval at the new revision
as `pending`.  Returns the updated ledger and the assigned revision. -/
def pspecGenerate (meta : RunMeta) (deps : PspecGenerateDeps) (now : String) :
    Except String (RunMeta × ℤ) :=
  match meta.crg with
  | Option.none => .error "Upload a CRG file first."
  | some crg =>
    if meta.dib.latest_revision < 1 then .error "Confirm the DIB first."
    else
      match deps.latestDib with
      | Option.none => .error "Missing dib.json."
      | some dib =>
        let revision := meta.pspec.latest_revision + 1
        let pspec := generatePspecV0_1
          ⟨meta.project_id, revision, now, crg, dib, deps.dibSha256⟩
        if ¬ deps.schemaErrors.isEmpty then .error "PSPEC failed schema validation."
        else
          match validatePspecManufacturability pspec with
          | .err _ => .error "PSPEC failed manufacturability validation."
          | .ok =>
            match mapPspecToOnshapeVariables pspec with
            | .err _ => .error "Onshape variables mapping failed."
            | .ok _ _ =>
              .ok
                ({ meta with
                    updated_at := now
                    pspec :=
                      { latest_revision := revision
                        revisions := meta.pspec.revisions ++
                          [⟨revision, deps.pspecSha256, deps.summaryMdSha256, now,
                            dib.revision, deps.dibSha256, crg.sha256,
                            ⟨.pending, Option.none⟩⟩]
                        approval := ⟨.pending, some revision, Option.none⟩ } },
                  revision)

/-! ## DIB draft validation (`src/dib/validateDib.ts`,
`src/dib/questionSet.v0_1.ts`) and the drawers part of `toDibV0_1`
(`part_003`).

A draft is an untyped JSON-like value.  `J.obj` keeps fields as an
association list (property access returns the first binding).  JS strict
equality on objects is reference equality, which never holds between a draft
value and a question-set constant, so `jsEqJ` is `false` on objects. -/

inductive J where
  | obj (fields : List (String × J))
  | num (q : ℚ)
  | str (s : String)
  | boolVal (b : Bool)
  | jsNull

/-- Property lookup in an object literal (first binding wins). -/
def lookupField : List (String × J) → String → Option J
  | [], _ => Option.none
  | (k, v) :: t, key => if k == key then some v else lookupField t key

/-- Optional-chaining property access: `v?.k`.  `undefined` is `none`;
accessing a property of `null`/`undefined` or of a non-object yields
`undefined`. -/
def jget (v : Option J) (k : String) : Option J :=
  match v with
  | some (J.obj fs) => lookupField fs k
  | _ => Option.none

/-- First global regex replace of the pointer unescaping: `~1` → `/`. -/
def replaceTilde1 : List Char → List Char
  | '~' :: '1' :: t => '/' :: replaceTilde1 t
  | c :: t => c :: replaceTilde1 t
  | [] => []

/-- Second global regex replace of the pointer unescaping: `~0` → `~`. -/
def replaceTilde0 : List Char → List Char
  | '~' :: '0' :: t => '~' :: replaceTilde0 t
  | c :: t => c :: replaceTilde0 t
  | [] => []

/-- `p.replace(/~1/g, "/").replace(/~0/g, "~")`. -/
def unescapeSeg (cs : List Char) : List Char := replaceTilde0 (replaceTilde1 cs)

/-- `pointer.split("/")` on the part after the leading slash. -/
def splitOnSlash : List Char → List (List Char)
  | [] => [[]]
  | '/' :: t => [] :: splitOnSlash t
  | c :: t =>
      match splitOnSlash t with
      | s :: ss => (c :: s) :: ss
      | [] => [[c]]

/-- Walk the parsed pointer segments: stop with `undefined` as soon as the
current value is missing, `null`, or not an object. -/
def jWalk (cur : Option J) : List String → Option J
  | [] => cur
  | k :: rest =>
      match cur with
      | some (J.obj fs) => jWalk (lookupField fs k) rest
      | _ => Option.none

/-- `getByPointer(obj, pointer)`: `undefined` unless the pointer starts with
`/`; split on `/`, unescape `~1`/`~0` per segment, then walk. -/
def getByPointer (obj : J) (pointer : String) : Option J :=
  match pointer.toList with
  | '/' :: rest =>
      jWalk (some obj) ((splitOnSlash rest).map (fun cs => String.mk (unescapeSeg cs)))
  | _ => Option.none

/-- JS strict equality between a present draft value and a question-set
constant (always a primitive in the v0.1 question set; object comparison is
reference equality and is modelled as `false`). -/
def jsEqJ : J → J → Bool
  | J.num a, J.num b => a == b
  | J.str a, J.str b => a == b
  | J.boolVal a, J.boolVal b => a == b
  | J.jsNull, J.jsNull => true
  | _, _ => false

/-- `v === w` where `v` may be `undefined`. -/
def jsEqOpt (v : Option J) (w : J) : Bool :=
  match v with
  | some v' => jsEqJ v' w
  | Option.none => false

inductive DibQuestionKind where
  | confirm
  | boolean
  | enum
  | number_mm
  | number
  | integer
  | text

inductive DibDependsOn where
  | eqDep (path : String) (value : J)
  | gteDep (path : String) (n : ℚ)

/-- One entry of the DIB question schema (prompt strings are UI text and are
not carried; `confirm_if_default` only affects the UI and is dropped by the
validator, but is kept for fidelity). -/
structure DibQuestion where
  id : String
  group : String
  kind : DibQuestionKind
  store_path : String
  required : Bool
  default : Option J := Option.none
  min : Option ℚ := Option.none
  max : Option ℚ := Option.none
  options : Option (List String) := Option.none
  depends_on : Option DibDependsOn := Option.none
  confirm_if_default : Bool := false

structure DibValidationError where
  path : String
  message : String
deriving DecidableEq

/-- `questionApplies(question, draft)`. -/
def questionApplies (q : DibQuestion) (draft : J) : Bool :=
  match q.depends_on with
  | Option.none => true
  | some (.eqDep path w) => jsEqOpt (getByPointer draft path) w
  | some (.gteDep path n) =>
      match getByPointer draft path with
      | some (J.num x) => decide (n ≤ x)
      | _ => false

/-- The kind check of the per-question validation loop (runs on a present
value; pushes at most one error). -/
def kindErrors (q : DibQuestion) (v : J) : List DibValidationError :=
  match q.kind with
  | .confirm => if jsEqJ v (J.boolVal true) then [] else [⟨q.store_path, "Must be confirmed."⟩]
  | .boolean =>
      match v with
      | J.boolVal _ => []
      | _ => [⟨q.store_path, "Must be true/false."⟩]
  | .enum =>
      match v with
      | J.str s =>
          if (q.options.getD []).contains s then []
          else [⟨q.store_path, "Must be one of: " ++ String.intercalate ", " (q.options.getD [])⟩]
      | _ => [⟨q.store_path, "Must be one of: " ++ String.intercalate ", " (q.options.getD [])⟩]
  | .integer =>
      match v with
      | J.num x => if isIntegerQ x then [] else [⟨q.store_path, "Must be an integer."⟩]
      | _ => [⟨q.store_path, "Must be an integer."⟩]
  | .number_mm =>
      match v with
      | J.num _ => []
      | _ => [⟨q.store_path, "Must be a number."⟩]
  | .number =>
      match v with
      | J.num _ => []
      | _ => [⟨q.store_path, "Must be a number."⟩]
  | .text =>
      match v with
      | J.str _ => []
      | _ => [⟨q.store_path, "Must be text."⟩]

/-- The min/max checks of the per-question validation loop (only applied to
finite numbers; both bounds can fire). -/
def rangeErrors (q : DibQuestion) (v : J) : List DibValidationError :=
  match v with
  | J.num x =>
      (match q.min with
        | some m => if x < m then [⟨q.store_path, "Must be ≥ " ++ toString m ++ "."⟩] else []
        | Option.none => []) ++
      (match q.max with
        | some m => if m < x then [⟨q.store_path, "Must be ≤ " ++ toString m ++ "."⟩] else []
        | Option.none => [])
  | _ => []

/-- Errors contributed by one question: skipped when inapplicable; a missing
required answer is `Required.` (and stops this question); a present value
goes through the kind check and the min/max checks. -/
def errsForQuestion (draft : J) (q : DibQuestion) : List DibValidationError :=
  if questionApplies q draft then
    match getByPointer draft q.store_path with
    | Option.none => if q.required then [⟨q.store_path, "Required."⟩] else []
    | some v => kindErrors q v ++ rangeErrors q v
  else []

/-- The ordered question list of `dibQuestionSetV0_1`. -/
def dibQuestionSetV0_1 : List DibQuestion :=
  [ { id := "assumptions.confirm_archetype", group := "assumptions", kind := .confirm,
      store_path := "/assumptions/archetype_confirmed", required := true },
    { id := "assumptions.confirm_sealed_speakers", group := "assumptions", kind := .confirm,
      store_path := "/assumptions/sealed_speakers_confirmed", required := true },
    { id := "overall.width_mm", group := "overall", kind := .number_mm,
      store_path := "/overall/width_mm", required := true, min := some 1, max := some 10000 },
    { id := "overall.height_mm", group := "overall", kind := .number_mm,
      store_path := "/overall/height_mm", required := true, min := some 1, max := some 10000 },
    { id := "overall.depth_mm", group := "overall", kind := .number_mm,
      store_path := "/overall/depth_mm", required := true, min := some 1, max := some 10000 },
    { id := "constraints.back_clearance_mm", group := "constraints", kind := .number_mm,
      store_path := "/constraints/back_clearance_mm", required := true,
      default := some (J.num 25), min := some 0, max := some 2000, confirm_if_default := true },
    { id := "access.rear_service_hatch", group := "access", kind := .boolean,
      store_path := "/access/rear_service_hatch", required := true },
    { id := "material.type", group := "material", kind := .enum,
      store_path := "/material/type", required := true, default := some (J.str "plywood"),
      options := some ["plywood", "mdf", "veneer_plywood", "other"], confirm_if_default := true },
    { id := "material.thickness_mm", group := "material", kind := .number_mm,
      store_path := "/material/thickness_mm", required := true, default := some (J.num 18),
      min := some 1, max := some 2000, confirm_if_default := true },
    { id := "material.notes", group := "material", kind := .text,
      store_path := "/material/notes", required := false,
      depends_on := some (.eqDep "/material/type" (J.str "other")) },
    { id := "speakers.external.width_mm", group := "speakers", kind := .number_mm,
      store_path := "/speakers/external_mm/width_mm", required := true, min := some 1, max := some 10000 },
    { id := "speakers.external.height_mm", group := "speakers", kind := .number_mm,
      store_path := "/speakers/external_mm/height_mm", required := true, min := some 1, max := some 10000 },
    { id := "speakers.external.depth_mm", group := "speakers", kind := .number_mm,
      store_path := "/speakers/external_mm/depth_mm", required := true, min := some 1, max := some 10000 },
    { id := "speakers.weight_kg", group := "speakers", kind := .number,
      store_path := "/speakers/weight_kg", required := true, min := some (1/100), max := some 500 },
    { id := "speakers.required_clearance_mm", group := "speakers", kind := .number_mm,
      store_path := "/speakers/required_clearance_mm", required := true, min := some 0, max := some 2000 },
    { id := "speakers.isolation.strategy", group := "speakers", kind := .enum,
      store_path := "/speakers/isolation/strategy", required := true,
      options := some ["none", "foam_pad", "sorbothane_feet", "spikes", "floating_shelf", "other"] },
    { id := "speakers.isolation.notes", group := "speakers", kind := .text,
      store_path := "/speakers/isolation/notes", required := false,
      depends_on := some (.eqDep "/speakers/isolation/strategy" (J.str "other")) },
    { id := "turntable.external.width_mm", group := "turntable", kind := .number_mm,
      store_path := "/turntable/external_mm/width_mm", required := true, min := some 1, max := some 10000 },
    { id := "turntable.external.height_mm", group := "turntable", kind := .number_mm,
      store_path := "/turntable/external_mm/height_mm", required := true, min := some 1, max := some 10000 },
    { id := "turntable.external.depth_mm", group := "turntable", kind := .number_mm,
      store_path := "/turntable/external_mm/depth_mm", required := true, min := some 1, max := some 10000 },
    { id := "turntable.isolation", group := "turntable", kind := .boolean,
      store_path := "/turntable/isolation", required := true },
    { id := "amplifier.external.width_mm", group := "amplifier", kind := .number_mm,
      store_path := "/amplifier/external_mm/width_mm", required := true, min := some 1, max := some 10000 },
    { id := "amplifier.external.height_mm", group := "amplifier", kind := .number_mm,
      store_path := "/amplifier/external_mm/height_mm", required := true, min := some 1, max := some 10000 },
    { id := "amplifier.external.depth_mm", group := "amplifier", kind := .number_mm,
      store_path := "/amplifier/external_mm/depth_mm", required := true, min := some 1, max := some 10000 },
    { id := "amplifier.ventilation_direction", group := "amplifier", kind := .enum,
      store_path := "/amplifier/ventilation_direction", required := true,
      options := some ["front", "rear", "up", "left", "right"] },
    { id := "amplifier.required_clearance_mm", group := "amplifier", kind := .number_mm,
      store_path := "/amplifier/required_clearance_mm", required := true, min := some 0, max := some 2000 },
    { id := "drawers.count", group := "drawers", kind := .integer,
      store_path := "/drawers/count", required := true, default := some (J.num 2),
      min := some 0, max := some 6, confirm_if_default := true },
    { id := "drawers.lp_capacity_target", group := "drawers", kind := .integer,
      store_path := "/drawers/lp_capacity_target", required := true, min := some 0, max := some 3000,
      depends_on := some (.gteDep "/drawers/count" 1) },
    { id := "output_profile", group := "output", kind := .enum,
      store_path := "/output_profile", required := true,
      options := some ["hand_tools", "panel_saw", "cnc_shop"] },
    { id := "confirm_dib_authoritative", group := "confirmation", kind := .confirm,
      store_path := "/confirmed", required := true } ]

/-- The cross-field check of `validateDibDraft`: when both values are finite
numbers and `backClearance >= overallDepth`, one distinct error attached to
the back-clearance path. -/
def crossFieldErrors (draft : J) : List DibValidationError :=
  match getByPointer draft "/overall/depth_mm", getByPointer draft "/constraints/back_clearance_mm" with
  | some (J.num d), some (J.num c) =>
      if d ≤ c then [⟨"/constraints/back_clearance_mm", "Must be less than overall depth."⟩] else []
  | _, _ => []

/-- `validateDibDraft`: the per-question loop over the v0.1 question set,
followed by the cross-field back-clearance/depth check. -/
def validateDibDraft (draft : J) : List DibValidationError :=
  dibQuestionSetV0_1.flatMap (errsForQuestion draft) ++ crossFieldErrors draft

/-- `x ?? d` for a possibly-missing draft value. -/
def jsCoalesce (v : Option J) (d : J) : J :=
  match v with
  | Option.none => d
  | some J.jsNull => d
  | some v' => v'

/-- JS `Number(x)` on the values a JSON draft can hold, as an optional
rational (`none` is `NaN`).  `Number(string)` parsing is not modelled (it
returns `none` here); no claim depends on string-to-number coercion, and a
draft that passed validation holds actual numbers at every numeric path. -/
def jsNumber : J → Option ℚ
  | J.num q => some q
  | J.jsNull => some 0
  | J.boolVal b => some (if b then 1 else 0)
  | J.str _ => Option.none
  | J.obj _ => Option.none

/-- `Number(x)` where `x` may be `undefined` (`Number(undefined)` is `NaN`). -/
def jsNumberOpt : Option J → Option ℚ
  | Option.none => Option.none
  | some v => jsNumber v

/-- The `drawers.count` field of `toDibV0_1` (`part_003` line 93):
`Number(draft?.drawers?.count)`. -/
def toDibDrawersCount (draft : J) : Option ℚ :=
  jsNumberOpt (jget (jget (some draft) "drawers") "count")

/-- The `drawers.lp_capacity_target` field of `toDibV0_1` (`part_003` line
94): `Number(draft?.drawers?.lp_capacity_target ?? 0)` — an unanswered field
is silently defaulted to `0`. -/
def toDibDrawersLpCapacityTarget (draft : J) : Option ℚ :=
  jsNumber (jsCoalesce (jget (jget (some draft) "drawers") "lp_capacity_target") (J.num 0))

/-! ## Claim-side feasibility predicates

These spell out, in the words of the specification, the individual
manufacturability violations; the validator theorems compare the code
against them. -/

/-- Spec violation (1): `available_depth = overall.depth_mm −
constraints.back_clearance_mm` is not strictly positive. -/
def depthViolation (p : PspecV0_1) : Prop :=
  ¬ (p.overall.depth_mm - p.constraints.back_clearance_mm > 0)

/-- Spec violation (2), speakers: available depth is positive and the
speaker envelope (depth plus front and rear clearance) exceeds it. -/
def speakersViolation (p : PspecV0_1) : Prop :=
  p.overall.depth_mm - p.constraints.back_clearance_mm > 0 ∧
    envDepth p.components.speakers.external_mm.depth_mm
        p.components.speakers.clearance_mm.front_mm
        p.components.speakers.clearance_mm.rear_mm >
      p.overall.depth_mm - p.constraints.back_clearance_mm

/-- Spec violation (2), amplifier. -/
def amplifierViolation (p : PspecV0_1) : Prop :=
  p.overall.depth_mm - p.constraints.back_clearance_mm > 0 ∧
    envDepth p.components.amplifier.external_mm.depth_mm
        p.components.amplifier.clearance_mm.front_mm
        p.components.amplifier.clearance_mm.rear_mm >
      p.overall.depth_mm - p.constraints.back_clearance_mm

/-- Spec violation (2), turntable. -/
def turntableViolation (p : PspecV0_1) : Prop :=
  p.overall.depth_mm - p.constraints.back_clearance_mm > 0 ∧
    envDepth p.components.turntable.external_mm.depth_mm
        p.components.turntable.clearance_mm.front_mm
        p.components.turntable.clearance_mm.rear_mm >
      p.overall.depth_mm - p.constraints.back_clearance_mm

/-- The drawer-depth violation exactly as the claim words it: drawers are
requested and the available depth is below the fixed 330 mm minimum — with
no condition that the available depth be positive. -/
def drawersViolationClaim (p : PspecV0_1) : Prop :=
  p.components.drawers.count > 0 ∧
    p.overall.depth_mm - p.constraints.back_clearance_mm < minLpDrawerDepthMm

/-- The drawer-depth violation as the code implements it: additionally
guarded by the available depth being positive. -/
def drawersViolationCode (p : PspecV0_1) : Prop :=
  p.overall.depth_mm - p.constraints.back_clearance_mm > 0 ∧
    p.components.drawers.count > 0 ∧
    p.overall.depth_mm - p.constraints.back_clearance_mm < minLpDrawerDepthMm

instance (p : PspecV0_1) : Decidable (depthViolation p) := by
  unfold depthViolation; infer_instance
instance (p : PspecV0_1) : Decidable (speakersViolation p) := by
  unfold speakersViolation; infer_instance
instance (p : PspecV0_1) : Decidable (amplifierViolation p) := by
  unfold amplifierViolation; infer_instance
instance (p : PspecV0_1) : Decidable (turntableViolation p) := by
  unfold turntableViolation; infer_instance
instance (p : PspecV0_1) : Decidable (drawersViolationClaim p) := by
  unfold drawersViolationClaim; infer_instance
instance (p : PspecV0_1) : Decidable (drawersViolationCode p) := by
  unfold drawersViolationCode; infer_instance

/-- Number of violations among (1), the three component checks of (2), and
the code-guarded drawer check (3). -/
def violationCount (p : PspecV0_1) : ℕ :=
  (if depthViolation p then 1 else 0) + (if speakersViolation p then 1 else 0) +
    (if amplifierViolation p then 1 else 0) + (if turntableViolation p then 1 else 0) +
    (if drawersViolationCode p then 1 else 0)

/-! ## Concrete inputs used by the counterexamples and witnesses -/

def crg0 : CrgMeta :=
  ⟨"console.glb", "glb", 123456, "b5bb9d8014a0f9b1d61e21e796d78dccdf1352f23cd32812f4850b878ae4944c",
    "2026-01-01T00:00:00.000Z"⟩

/-- A PSPEC on which the mapping succeeds, with `overall.depth_mm = 100.4`
and `back_clearance_mm = 0.9`: rounding each side gives `100` and `1`, but
rounding the difference `99.5` gives `100`. -/
def p0 : PspecV0_1 :=
  { pspec_version := "0.1.0"
    project_id := "proj-0001"
    revision := 1
    created_at := "2026-01-01T00:00:00.000Z"
    units := "mm"
    archetype_id := "record_console"
    archetype_version := "0.1"
    speaker_enclosure_type := "sealed"
    inputs := ⟨crg0, ⟨1, "0a0b0c", "2026-01-01T00:00:00.000Z"⟩⟩
    overall := ⟨1000, 500, 100.4⟩
    material := ⟨"plywood", 18, Option.none⟩
    constraints := ⟨0.9⟩
    access := ⟨true⟩
    output_profile := "cnc_shop"
    components :=
      ⟨⟨2, "sealed", ⟨200, 300, 25⟩, 8, clearanceAll 10, ⟨"none", Option.none⟩⟩,
        ⟨⟨450, 150, 60⟩, false, clearanceAll 0⟩,
        ⟨⟨430, 120, 50⟩, "rear", clearanceAll 10⟩,
        ⟨2, 100⟩⟩ }

/-- The variable map produced for `p0` (the mapping succeeds on `p0`). -/
def vars0 : List (String × ℤ) :=
  match mapPspecToOnshapeVariables p0 with
  | .ok v _ => v
  | .err _ => []

/-- The provenance list produced for `p0`. -/
def prov0 : List OnshapeVariableProvenance :=
  match mapPspecToOnshapeVariables p0 with
  | .ok _ pr => pr
  | .err _ => []

/-- A PSPEC with `depth_mm = 100` and `back_clearance_mm = 100` (available
depth `0`) and one drawer requested. -/
def pBad : PspecV0_1 :=
  { p0 with
    overall := ⟨1000, 500, 100⟩
    constraints := ⟨100⟩
    components := { p0.components with drawers := ⟨1, 100⟩ } }

/-- A draft whose only fields are a depth of `100` and a back clearance of
`150`. -/
def draftC8 : J :=
  J.obj [("overall", J.obj [("depth_mm", J.num 100)]),
         ("constraints", J.obj [("back_clearance_mm", J.num 150)])]

/-- A complete, valid draft with `drawers.count = 0` and no
`lp_capacity_target` answer. -/
def draftFull : J :=
  J.obj
    [ ("assumptions", J.obj [("archetype_confirmed", J.boolVal true),
        ("sealed_speakers_confirmed", J.boolVal true)]),
      ("overall", J.obj [("width_mm", J.num 2000), ("height_mm", J.num 900), ("depth_mm", J.num 450)]),
      ("constraints", J.obj [("back_clearance_mm", J.num 25)]),
      ("access", J.obj [("rear_service_hatch", J.boolVal true)]),
      ("material", J.obj [("type", J.str "plywood"), ("thickness_mm", J.num 18)]),
      ("speakers", J.obj [("external_mm", J.obj [("width_mm", J.num 200), ("height_mm", J.num 300), ("depth_mm", J.num 250)]),
        ("weight_kg", J.num 8), ("required_clearance_mm", J.num 10),
        ("isolation", J.obj [("strategy", J.str "none")])]),
      ("turntable", J.obj [("external_mm", J.obj [("width_mm", J.num 450), ("height_mm", J.num 150), ("depth_mm", J.num 380)]),
        ("isolation", J.boolVal false)]),
      ("amplifier", J.obj [("external_mm", J.obj [("width_mm", J.num 430), ("height_mm", J.num 120), ("depth_mm", J.num 350)]),
        ("ventilation_direction", J.str "rear"), ("required_clearance_mm", J.num 10)]),
      ("drawers", J.obj [("count", J.num 0)]),
      ("output_profile", J.str "cnc_shop"),
      ("confirmed", J.boolVal true) ]

/-- The message of the single kind error a question can emit. -/
def kindMessage (q : DibQuestion) : String :=
  match q.kind with
  | .confirm => "Must be confirmed."
  | .boolean => "Must be true/false."
  | .enum => "Must be one of: " ++ String.intercalate ", " (q.options.getD [])
  | .integer => "Must be an integer."
  | .number_mm => "Must be a number."
  | .number => "Must be a number."
  | .text => "Must be text."

/-- Every message the per-question loop can attach to a question. -/
def questionMessages (q : DibQuestion) : List String :=
  ["Required.", kindMessage q] ++
    (match q.min with
      | some m => ["Must be ≥ " ++ toString m ++ "."]
      | Option.none => []) ++
    (match q.max with
      | some m => ["Must be ≤ " ++ toString m ++ "."]
      | Option.none => [])

/-- Matcher for the dependency of the LP-capacity question. -/
def dependsOnIsCountGte1 : Option DibDependsOn → Bool
  | some (.gteDep path n) => path == "/drawers/count" && n == 1
  | _ => false

/-- A ledger holding one PSPEC revision whose approval record reads
`approved`, with the project pointer also at `approved`. -/
def meta6 : RunMeta :=
  { project_id := "proj-0001"
    project_name := Option.none
    created_at := "2026-01-01T00:00:00.000Z"
    updated_at := "2026-01-02T00:00:00.000Z"
    crg := some crg0
    dib := ⟨1, [⟨1, "dibsha1", "2026-01-01T12:00:00.000Z"⟩]⟩
    pspec :=
      ⟨1,
        [⟨1, "psha1", "ssha1", "2026-01-02T00:00:00.000Z", 1, "dibsha1", crg0.sha256,
          ⟨.approved, some "2026-01-02T00:00:00.000Z"⟩⟩],
        ⟨.approved, some 1, some "2026-01-02T00:00:00.000Z"⟩⟩ }

/-! ## Structural lemmas about the mapper -/

theorem applyStep_spec (st : MapStep) (s : MapState) :
    applyStep st s =
      ⟨s.errors ++ (stepError st).toList, s.vars ++ (stepEntry st).toList,
        s.provenance ++ (stepProv st).toList⟩ := by
  cases st with
  | svar a =>
      cases h : checkVar a <;>
        simp [applyStep, stepError, stepEntry, stepProv, h]
  | sflag f =>
      cases h : checkFlag f <;>
        simp [applyStep, stepError, stepEntry, stepProv, h]
  | serr e => simp [applyStep, stepError, stepEntry, stepProv]

theorem runSteps_spec (l : List MapStep) : ∀ s : MapState,
    runSteps l s =
      ⟨s.errors ++ l.filterMap stepError, s.vars ++ l.filterMap stepEntry,
        s.provenance ++ l.filterMap stepProv⟩ := by
  induction l with
  | nil => intro s; simp [runSteps]
  | cons st t ih =>
      intro s
      have : runSteps (st :: t) s = runSteps t (applyStep st s) := rfl
      rw [this, ih, applyStep_spec]
      cases h : stepError st <;> cases h2 : stepEntry st <;> cases h3 : stepProv st <;>
        simp [List.filterMap_cons, h, h2, h3]

theorem insertByVar_ne_nil {α : Type} (key : α → String) (e : α) (l : List α) :
    insertByVar key e l ≠ [] := by
  cases l with
  | nil => simp [insertByVar]
  | cons h t =>
      unfold insertByVar
      split <;> simp

theorem sortByVar_eq_nil_iff {α : Type} (key : α → String) (l : List α) :
    sortByVar key l = [] ↔ l = [] := by
  cases l with
  | nil => simp [sortByVar]
  | cons h t => simp [sortByVar, insertByVar_ne_nil]

/-- Closed form of `mapPspecToOnshapeVariables`: the collected errors,
variables and provenance are the `filterMap`s of the per-call outcomes over
the literal call sequence. -/
theorem mapPspec_spec (p : PspecV0_1) :
    mapPspecToOnshapeVariables p =
      if ((steps p).filterMap stepError).isEmpty then
        .ok ((steps p).filterMap stepEntry)
          (sortByVar (fun pr => pr.var) ((steps p).filterMap stepProv))
      else .err (sortByVar (fun e => e.var) ((steps p).filterMap stepError)) := by
  unfold mapPspecToOnshapeVariables
  rw [runSteps_spec]
  simp

theorem checkVar_ok_value (a : AddVarArgs) (q : ℚ)
    (hv : a.value = JsVal.num q) (hr : a.roundingMm = true) :
    ∀ n : ℤ, checkVar a = .ok n → n = roundMm q := by
  intro n h
  unfold checkVar at h
  rw [hv] at h
  simp only [JsVal.isMissing, JsVal.asFiniteNumber, hr, if_true, if_false,
    Bool.false_eq_true, reduceIte] at h
  have hden : isIntegerQ ((roundMm q : ℤ) : ℚ) = true := by
    simp [isIntegerQ, Rat.den_intCast]
  rw [hden] at h
  simp only [if_true] at h
  rcases hrange : a.range with _ | r <;> rw [hrange] at h <;> dsimp only at h
  · simpa [Rat.num_intCast] using h.symm
  · by_cases hin : intInRange ((roundMm q : ℤ) : ℚ) r.min r.max = true
    · rw [if_pos hin] at h
      simpa [Rat.num_intCast] using h.symm
    · rw [if_neg hin] at h
      exact absurd h (by simp)

/-- From a successful mapping, every call passed, and a passing `addVar`
call with a finite numeric value and mm rounding contributed
`(var, round(value))` to the variable map. -/
theorem mem_vars_of_step (p : PspecV0_1) (vs : List (String × ℤ))
    (prov : List OnshapeVariableProvenance)
    (h : mapPspecToOnshapeVariables p = .ok vs prov)
    (a : AddVarArgs) (q : ℚ) (hmem : MapStep.svar a ∈ steps p)
    (hv : a.value = JsVal.num q) (hr : a.roundingMm = true) :
    (a.var, roundMm q) ∈ vs := by
  rw [mapPspec_spec] at h
  by_cases hemp : ((steps p).filterMap stepError).isEmpty
  · rw [if_pos hemp] at h
    have hvs : vs = (steps p).filterMap stepEntry := by
      cases h; rfl
    have hnone : stepError (MapStep.svar a) = none := by
      have : ∀ st ∈ steps p, stepError st = none :=
        List.filterMap_eq_nil_iff.mp (by simpa using hemp)
      exact this _ hmem
    obtain ⟨n, hn⟩ : ∃ n, checkVar a = .ok n := by
      rcases hcv : checkVar a with e | n
      · rw [stepError, hcv] at hnone; simp at hnone
      · exact ⟨n, rfl⟩
    have hval : n = roundMm q := checkVar_ok_value a q hv hr n hn
    subst hval
    rw [hvs]
    exact List.mem_filterMap.mpr ⟨MapStep.svar a, hmem, by simp [stepEntry, hn]⟩
  · rw [if_neg hemp] at h
    exact absurd h (by simp)

/-! ## Claim theorems: the Onshape variable mapper -/

/-- C1: the mapping is all-or-nothing.  If any single per-variable check
fails, the result is the failure variant, which carries only the (nonempty)
error list — by the shape of `OnshapeMappingResult.err` no variable map and
no provenance list are returned.  The success variant, carrying the full
variable map and provenance, is produced exactly when every check passes
(so the collected error list is empty). -/
theorem mapping_all_or_nothing (p : PspecV0_1) :
    match mapPspecToOnshapeVariables p with
    | .err es => es ≠ [] ∧ ∃ st ∈ steps p, stepFails st = true
    | .ok vs prov =>
        (∀ st ∈ steps p, stepFails st = false) ∧
        vs = (steps p).filterMap stepEntry ∧
        prov = sortByVar (fun pr => pr.var) ((steps p).filterMap stepProv) := by
  rw [mapPspec_spec]
  by_cases hemp : ((steps p).filterMap stepError).isEmpty
  · rw [if_pos hemp]
    have hall : ∀ st ∈ steps p, stepError st = none :=
      List.filterMap_eq_nil_iff.mp (by simpa using hemp)
    exact ⟨fun st hst => by simp [stepFails, hall st hst], rfl, rfl⟩
  · rw [if_neg hemp]
    have hne : (steps p).filterMap stepError ≠ [] := by simpa using hemp
    refine ⟨by simpa using (sortByVar_eq_nil_iff (fun e => e.var) _).not.mpr hne, ?_⟩
    by_contra hnof
    push_neg at hnof
    exact hne (List.filterMap_eq_nil_iff.mpr (fun st hst => by
      have := hnof st hst
      simpa [stepFails, Option.isSome_iff_ne_none] using this))

/-- Witness for C1 at the concrete PSPEC `p0`, on which every check passes:
the returned variable map and provenance are exactly the per-call successes. -/
theorem mapping_all_or_nothing_witness :
    vars0 = (steps p0).filterMap stepEntry ∧
    prov0 = sortByVar (fun pr => pr.var) ((steps p0).filterMap stepProv) := by
  have h := mapping_all_or_nothing p0
  rw [show mapPspecToOnshapeVariables p0 = .ok vars0 prov0 from by with_unfolding_all rfl] at h
  exact ⟨h.2.1, h.2.2⟩

/-- C2 counterexample: a PSPEC on which the mapping succeeds with
`OVERALL_D = 100` and `OVERALL_BACK_CLEARANCE = 1` (independently rounded
from `100.4` and `0.9`), yet `OVERALL_AVAILABLE_DEPTH = 100 ≠ 100 − 1`: the
implementation subtracts first and rounds once, so the claimed identity over
independently rounded sides fails. -/
theorem available_depth_identity_cex :
    mapPspecToOnshapeVariables p0 = .ok vars0 prov0 ∧
    vars0.lookup "OVERALL_AVAILABLE_DEPTH" = some 100 ∧
    vars0.lookup "OVERALL_D" = some 100 ∧
    vars0.lookup "OVERALL_BACK_CLEARANCE" = some 1 ∧
    (100 : ℤ) ≠ 100 - 1 := by
  refine ⟨by with_unfolding_all rfl, ?_, ?_, ?_, by decide⟩ <;> with_unfolding_all decide

/-- C2 amended: whenever the mapping succeeds, `OVERALL_D` and
`OVERALL_BACK_CLEARANCE` are the independently rounded depth and back
clearance, while `OVERALL_AVAILABLE_DEPTH` is
`round(depth_mm − back_clearance_mm)` — the difference is rounded once,
after subtraction, not derived from the two rounded variables. -/
theorem available_depth_rounds_difference (p : PspecV0_1) (vs : List (String × ℤ))
    (prov : List OnshapeVariableProvenance)
    (h : mapPspecToOnshapeVariables p = .ok vs prov) :
    ("OVERALL_D", roundMm p.overall.depth_mm) ∈ vs ∧
    ("OVERALL_BACK_CLEARANCE", roundMm p.constraints.back_clearance_mm) ∈ vs ∧
    ("OVERALL_AVAILABLE_DEPTH",
      roundMm (p.overall.depth_mm - p.constraints.back_clearance_mm)) ∈ vs := by
  refine ⟨?_, ?_, ?_⟩
  · exact mem_vars_of_step p vs prov h
      ⟨"OVERALL_D", .mm, .DIB, "/overall/depth_mm", .num p.overall.depth_mm, some mmPos, true,
        Option.none⟩
      p.overall.depth_mm (by simp [steps, overallSteps]) rfl rfl
  · exact mem_vars_of_step p vs prov h
      ⟨"OVERALL_BACK_CLEARANCE", .mm, .DIB, "/constraints/back_clearance_mm",
        .num p.constraints.back_clearance_mm, some mmClr, true, Option.none⟩
      p.constraints.back_clearance_mm (by simp [steps, overallSteps]) rfl rfl
  · exact mem_vars_of_step p vs prov h
      ⟨"OVERALL_AVAILABLE_DEPTH", .mm, .DERIVED,
        "DERIVED: /overall/depth_mm - /constraints/back_clearance_mm",
        .num (p.overall.depth_mm - p.constraints.back_clearance_mm), some ⟨1, 10000⟩, true,
        some "Derived: round(overall.depth_mm - constraints.back_clearance_mm)."⟩
      (p.overall.depth_mm - p.constraints.back_clearance_mm)
      (by simp [steps, overallSteps]) rfl rfl

/-- Witness for the amended C2 theorem at the concrete PSPEC `p0`. -/
theorem available_depth_rounds_difference_witness :
    ("OVERALL_D", roundMm (100.4 : ℚ)) ∈ vars0 ∧
    ("OVERALL_BACK_CLEARANCE", roundMm (0.9 : ℚ)) ∈ vars0 ∧
    ("OVERALL_AVAILABLE_DEPTH", roundMm ((100.4 : ℚ) - 0.9)) ∈ vars0 :=
  available_depth_rounds_difference p0 vars0 prov0 (by with_unfolding_all rfl)

/-- C3: for a dimensional variable (finite numeric value, mm rounding, a
declared range), the stored value is `round(v)` — nearest integer, ties
half-up: `100.4 ↦ 100`, `100.5 ↦ 101` — and the rounded value is then range
checked: inside the range the check returns exactly `round(v)`; outside it
the check returns an `OUT_OF_RANGE` error instead of a clamped value. -/
theorem dimensional_rounding_law (a : AddVarArgs) (q : ℚ) (r : MmRange)
    (hv : a.value = JsVal.num q) (hr : a.roundingMm = true) (hrange : a.range = some r) :
    (roundMm (100.4 : ℚ) = 100 ∧ roundMm (100.5 : ℚ) = 101) ∧
    ((r.min ≤ ((roundMm q : ℤ) : ℚ) ∧ ((roundMm q : ℤ) : ℚ) ≤ r.max) →
      checkVar a = .ok (roundMm q)) ∧
    (¬ (r.min ≤ ((roundMm q : ℤ) : ℚ) ∧ ((roundMm q : ℤ) : ℚ) ≤ r.max) →
      ∃ e, checkVar a = .error e ∧ e.code = .OUT_OF_RANGE) := by
  have hden : isIntegerQ ((roundMm q : ℤ) : ℚ) = true := by
    simp [isIntegerQ, Rat.den_intCast]
  have hcv : checkVar a =
      (if intInRange ((roundMm q : ℤ) : ℚ) r.min r.max then
        Except.ok ((roundMm q : ℤ) : ℚ).num
      else
        .error ⟨.OUT_OF_RANGE, a.var, some a.pspecPath,
          "Value " ++ toString ((roundMm q : ℤ) : ℚ) ++ " is outside allowed range " ++
            toString r.min ++ "…" ++ toString r.max ++ "."⟩) := by
    unfold checkVar
    rw [hv]
    simp only [JsVal.isMissing, JsVal.asFiniteNumber, hr, hrange, Bool.false_eq_true,
      reduceIte, hden, if_true]
  refine ⟨⟨by with_unfolding_all decide, by with_unfolding_all decide⟩, ?_, ?_⟩
  · intro hin
    have : intInRange ((roundMm q : ℤ) : ℚ) r.min r.max = true := by
      simp [intInRange, hden, hin.1, hin.2]
    rw [hcv, if_pos this, Rat.num_intCast]
  · intro hout
    have : ¬ intInRange ((roundMm q : ℤ) : ℚ) r.min r.max = true := by
      simp only [intInRange, hden, Bool.true_and, Bool.and_eq_true, decide_eq_true_eq]
      exact fun hc => hout hc
    rw [hcv, if_neg this]
    exact ⟨_, rfl, rfl⟩

/-- Witness for the C3 theorem: `OVERALL_W` fed with `100.4` mm rounds to
`100`, inside the declared range `1…10000`. -/
theorem dimensional_rounding_law_witness :
    checkVar ⟨"OVERALL_W", .mm, .DIB, "/overall/width_mm", .num (100.4 : ℚ), some mmPos, true,
        Option.none⟩ =
      .ok (roundMm (100.4 : ℚ)) :=
  (dimensional_rounding_law _ (100.4 : ℚ) mmPos rfl rfl rfl).2.1
    (by with_unfolding_all decide)

/-! ## Claim theorem: PSPEC synthesis (C5) -/

/-- C5: the synthesized PSPEC applies the single DIB clearance scalar to all
six sides for speakers and amplifier, uses the all-zero default for the
turntable, and copies `overall`, `material`, `constraints` and `access`
verbatim from the DIB. -/
theorem pspec_synthesis_clearances_and_copies (args : GeneratePspecArgs) :
    (generatePspecV0_1 args).components.speakers.clearance_mm =
        clearanceAll args.dib.speakers.required_clearance_mm ∧
    (generatePspecV0_1 args).components.amplifier.clearance_mm =
        clearanceAll args.dib.amplifier.required_clearance_mm ∧
    (generatePspecV0_1 args).components.turntable.clearance_mm = clearanceAll 0 ∧
    clearanceAll args.dib.speakers.required_clearance_mm =
        ⟨args.dib.speakers.required_clearance_mm, args.dib.speakers.required_clearance_mm,
          args.dib.speakers.required_clearance_mm, args.dib.speakers.required_clearance_mm,
          args.dib.speakers.required_clearance_mm, args.dib.speakers.required_clearance_mm⟩ ∧
    clearanceAll 0 = ⟨0, 0, 0, 0, 0, 0⟩ ∧
    (generatePspecV0_1 args).overall = args.dib.overall ∧
    (generatePspecV0_1 args).material = args.dib.material ∧
    (generatePspecV0_1 args).constraints = args.dib.constraints ∧
    (generatePspecV0_1 args).access = args.dib.access :=
  ⟨rfl, rfl, rfl, rfl, rfl, rfl, rfl, rfl, rfl⟩

/-! ## Claim theorems: manufacturability validator (C4) -/

/-- C4 counterexample: at `pBad` the available depth is `0` and one drawer
is requested, so both violation (1) and the drawer violation as the claim
words it (no positivity guard) hold — two violations — yet the validator
reports a single message: the drawer check is skipped because the code runs
it only when the available depth is positive. -/
theorem manufacturability_message_count_cex :
    validatePspecManufacturability pBad =
      .err ["overall.depth_mm must exceed constraints.back_clearance_mm."] ∧
    depthViolation pBad ∧ drawersViolationClaim pBad ∧
    ¬ drawersViolationCode pBad ∧
    ["overall.depth_mm must exceed constraints.back_clearance_mm."].length = 1 := by
  refine ⟨by with_unfolding_all decide, ?_, ?_, ?_, rfl⟩ <;> with_unfolding_all decide

/-- C4 amended: the validator fails exactly when one of the violations
holds — (1) non-positive available depth; (2) a speaker / amplifier /
turntable envelope exceeding a positive available depth; (3) drawers
requested while a *positive* available depth is below the 330 mm minimum —
and the error list carries exactly one message per violation so counted
(when the available depth is not positive, only the violation-(1) message is
reported and the component and drawer checks are skipped). -/
theorem manufacturability_violations_exact (p : PspecV0_1) :
    match validatePspecManufacturability p with
    | .ok =>
        ¬ depthViolation p ∧ ¬ speakersViolation p ∧ ¬ amplifierViolation p ∧
          ¬ turntableViolation p ∧ ¬ drawersViolationCode p
    | .err l =>
        (depthViolation p ∨ speakersViolation p ∨ amplifierViolation p ∨
          turntableViolation p ∨ drawersViolationCode p) ∧
        l.length = violationCount p := by
  unfold validatePspecManufacturability violationCount depthViolation speakersViolation
    amplifierViolation turntableViolation drawersViolationCode
  split_ifs <;> simp_all [lt_iff_not_le, -not_le, -not_lt]

/-! ## Ledger lemmas and claim theorems (C6, C7, C9) -/

theorem dibConfirmSeq_spec (l : List (String × String)) : ∀ meta : RunMeta,
    (dibConfirmSeq meta l).dib.latest_revision = meta.dib.latest_revision + l.length ∧
    (dibConfirmSeq meta l).dib.revisions.map (fun e => e.revision) =
      meta.dib.revisions.map (fun e => e.revision) ++
        (List.range l.length).map (fun i : ℕ => meta.dib.latest_revision + (i : ℤ) + 1) := by
  induction l with
  | nil => intro meta; simp [dibConfirmSeq]
  | cons hd tl ih =>
      intro meta
      obtain ⟨now, sha⟩ := hd
      have hstep : dibConfirmSeq meta ((now, sha) :: tl) =
          dibConfirmSeq (dibConfirmLedgerUpdate meta now sha).1 tl := rfl
      rw [hstep]
      obtain ⟨ih1, ih2⟩ := ih (dibConfirmLedgerUpdate meta now sha).1
      have hlat : (dibConfirmLedgerUpdate meta now sha).1.dib.latest_revision =
          meta.dib.latest_revision + 1 := rfl
      have hrev : (dibConfirmLedgerUpdate meta now sha).1.dib.revisions =
          meta.dib.revisions ++ [⟨meta.dib.latest_revision + 1, sha, now⟩] := rfl
      constructor
      · rw [ih1, hlat]
        push_cast [List.length_cons]
        ring
      · rw [ih2, hrev, hlat]
        simp only [List.length_cons, List.map_append, List.map_cons, List.map_nil,
          List.append_assoc, List.singleton_append]
        congr 1
        rw [List.range_succ_eq_map]
        simp only [List.map_cons, List.map_map]
        congr 1
        · push_cast; ring
        · apply List.map_congr_left
          intro i _
          simp only [Function.comp_apply]
          push_cast
          ring

/-- Facts about a successful `pspec/generate`: the assigned revision is the
prior PSPEC counter plus one, the counter is advanced to it, the revision
list is extended by exactly that revision, and the project approval pointer
becomes `pending` against it. -/
theorem pspecGenerate_ok_spec (meta : RunMeta) (deps : PspecGenerateDeps) (now : String) :
    match pspecGenerate meta deps now with
    | .ok (m, r) =>
        r = meta.pspec.latest_revision + 1 ∧
        m.pspec.latest_revision = r ∧
        m.pspec.revisions.map (fun e => e.revision) =
          meta.pspec.revisions.map (fun e => e.revision) ++ [r] ∧
        m.pspec.approval = ⟨.pending, some r, Option.none⟩
    | .error _ => True := by
  unfold pspecGenerate
  rcases meta.crg with _ | crg
  · trivial
  · dsimp only
    split_ifs <;> rcases deps.latestDib with _ | dib <;> (dsimp only; try trivial)
    split
    · rename_i m r heq
      split at heq
      · simp at heq
      · split at heq
        · simp at heq
        · cases heq
          exact ⟨rfl, rfl, by simp, rfl⟩
    · trivial

/-- C6: confirming a DIB revision resets the project-level approval pointer
to `{state: none, revision: null}` whatever its prior state, while the list
of per-PSPEC-revision records (each with its own approval) is left exactly
as it was — in particular a revision recorded as `approved` still reads
`approved` afterwards. -/
theorem dib_confirm_resets_approval_pointer (meta : RunMeta) (now sha : String) :
    (dibConfirmLedgerUpdate meta now sha).1.pspec.approval =
      ⟨.none, Option.none, Option.none⟩ ∧
    (dibConfirmLedgerUpdate meta now sha).1.pspec.revisions = meta.pspec.revisions ∧
    ∀ e ∈ meta.pspec.revisions, e.approval.state = .approved →
      e ∈ (dibConfirmLedgerUpdate meta now sha).1.pspec.revisions ∧
        e.approval.state = .approved :=
  ⟨rfl, rfl, fun _e he happ => ⟨he, happ⟩⟩

/-- Witness for C6 at the concrete ledger `meta6`, whose single PSPEC
revision is `approved`: after confirming a new DIB the pointer is reset
while the revision entry still reads `approved`. -/
theorem dib_confirm_resets_approval_pointer_witness :
    (dibConfirmLedgerUpdate meta6 "2026-01-03T00:00:00.000Z" "dibsha2").1.pspec.approval =
      ⟨.none, Option.none, Option.none⟩ ∧
    (dibConfirmLedgerUpdate meta6 "2026-01-03T00:00:00.000Z" "dibsha2").1.pspec.revisions =
      meta6.pspec.revisions ∧
    (⟨1, "psha1", "ssha1", "2026-01-02T00:00:00.000Z", 1, "dibsha1", crg0.sha256,
        ⟨.approved, some "2026-01-02T00:00:00.000Z"⟩⟩ : PspecRevisionEntry) ∈
      (dibConfirmLedgerUpdate meta6 "2026-01-03T00:00:00.000Z" "dibsha2").1.pspec.revisions := by
  have h := dib_confirm_resets_approval_pointer meta6 "2026-01-03T00:00:00.000Z" "dibsha2"
  exact ⟨h.1, h.2.1,
    (h.2.2 _ (List.mem_singleton.mpr rfl) rfl).1⟩

/-- C7: revision numbers are strictly increasing and gapless.  Confirming
`N` drafts sequentially from a fresh ledger yields DIB revisions
`1, 2, …, N` with the counter at `N`; each single confirmation assigns
`latest_revision + 1`; and each successful PSPEC generation assigns
`pspec.latest_revision + 1` (a formula independent of the DIB counter) and
appends exactly that revision. -/
theorem revision_monotonicity :
    (∀ (pid : String) (pname : Option String) (now0 : String) (l : List (String × String)),
      (dibConfirmSeq (initRunMeta pid now0 pname) l).dib.latest_revision = l.length ∧
      (dibConfirmSeq (initRunMeta pid now0 pname) l).dib.revisions.map (fun e => e.revision) =
        (List.range l.length).map (fun i : ℕ => (i : ℤ) + 1)) ∧
    (∀ (meta : RunMeta) (now sha : String),
      (dibConfirmLedgerUpdate meta now sha).2 = meta.dib.latest_revision + 1 ∧
      (dibConfirmLedgerUpdate meta now sha).1.dib.latest_revision =
        meta.dib.latest_revision + 1 ∧
      (dibConfirmLedgerUpdate meta now sha).1.dib.revisions =
        meta.dib.revisions ++ [⟨meta.dib.latest_revision + 1, sha, now⟩]) ∧
    (∀ (meta : RunMeta) (deps : PspecGenerateDeps) (now : String),
      match pspecGenerate meta deps now with
      | .ok (m, r) =>
          r = meta.pspec.latest_revision + 1 ∧
          m.pspec.latest_revision = r ∧
          m.pspec.revisions.map (fun e => e.revision) =
            meta.pspec.revisions.map (fun e => e.revision) ++ [r]
      | .error _ => True) := by
  refine ⟨?_, ?_, ?_⟩
  · intro pid pname now0 l
    obtain ⟨h1, h2⟩ := dibConfirmSeq_spec l (initRunMeta pid now0 pname)
    refine ⟨by simpa [initRunMeta] using h1, ?_⟩
    rw [h2]
    simp [initRunMeta]
  · intro meta now sha
    exact ⟨rfl, rfl, rfl⟩
  · intro meta deps now
    have h := pspecGenerate_ok_spec meta deps now
    rcases hg : pspecGenerate meta deps now with _e | ⟨m, r⟩
    · trivial
    · rw [hg] at h
      exact ⟨h.1, h.2.1, h.2.2.1⟩

theorem find?_updateFirst {α : Type} (p : α → Bool) (f : α → α)
    (hpf : ∀ a, p a = true → p (f a) = true) (l : List α) :
    (updateFirst p f l).find? p = (l.find? p).map f := by
  induction l with
  | nil => rfl
  | cons a t ih =>
      by_cases hp : p a = true
      · simp [updateFirst, hp, List.find?, hpf a hp]
      · simp only [updateFirst, hp, Bool.false_eq_true, reduceIte]
        rw [List.find?_cons_of_neg _ (by simpa using hp),
          List.find?_cons_of_neg _ (by simpa using hp)]
        exact ih

/-- C9: rejection is symmetric to approval.  When a PSPEC exists, rejecting
sets the project-level pointer to `rejected` at the latest revision with the
decision timestamp, and sets the approval record of that revision entry
(found in the ledger list) to `rejected` with the same timestamp; the
operation refuses only when no PSPEC revision exists.  A subsequently
successful generation returns the project pointer to `pending` against the
newly assigned revision. -/
theorem rejection_symmetric_and_supersedable :
    (∀ (meta : RunMeta) (now : String),
      match pspecReject meta now with
      | .error _ => meta.pspec.latest_revision < 1
      | .ok m =>
          m.pspec.approval = ⟨.rejected, some meta.pspec.latest_revision, some now⟩ ∧
          (m.pspec.revisions.find?
              (fun e => e.revision == meta.pspec.latest_revision)).map (fun e => e.approval) =
            (meta.pspec.revisions.find?
              (fun e => e.revision == meta.pspec.latest_revision)).map
                (fun _ => (⟨.rejected, some now⟩ : RevisionApproval))) ∧
    (∀ (meta : RunMeta) (deps : PspecGenerateDeps) (now : String),
      match pspecGenerate meta deps now with
      | .ok (m, r) => m.pspec.approval = ⟨.pending, some r, Option.none⟩
      | .error _ => True) := by
  constructor
  · intro meta now
    unfold pspecReject
    split_ifs with h
    · exact h
    · refine ⟨rfl, ?_⟩
      dsimp only
      rw [find?_updateFirst _ _ (fun a ha => by simpa using ha)]
      cases meta.pspec.revisions.find? (fun e => e.revision == meta.pspec.latest_revision) <;>
        simp
  · intro meta deps now
    have h := pspecGenerate_ok_spec meta deps now
    rcases hg : pspecGenerate meta deps now with _e | ⟨m, r⟩
    · trivial
    · rw [hg] at h
      exact h.2.2.2

/-! ## DIB draft validation lemmas and claim theorems (C8, C10) -/

theorem kindErrors_shape (q : DibQuestion) (v : J) :
    ∀ e ∈ kindErrors q v, e.path = q.store_path ∧ e.message = kindMessage q := by
  intro e he
  unfold kindErrors at he
  unfold kindMessage
  rcases hk : q.kind <;> rw [hk] at he <;> cases v <;>
    (try split at he) <;> simp_all

theorem rangeErrors_shape (q : DibQuestion) (v : J) :
    ∀ e ∈ rangeErrors q v, e.path = q.store_path ∧ e.message ∈ questionMessages q := by
  intro e he
  unfold rangeErrors at he
  cases v <;> try exact absurd he (List.not_mem_nil e)
  rcases List.mem_append.mp he with hm | hm
  · rcases hmin : q.min with _ | m <;> rw [hmin] at hm
    · exact absurd hm (List.not_mem_nil e)
    · split at hm <;> simp_all [questionMessages]
  · rcases hmax : q.max with _ | m <;> rw [hmax] at hm
    · exact absurd hm (List.not_mem_nil e)
    · split at hm <;> simp_all [questionMessages]

theorem errsForQuestion_shape (draft : J) (q : DibQuestion) :
    ∀ e ∈ errsForQuestion draft q, e.path = q.store_path ∧ e.message ∈ questionMessages q := by
  intro e he
  unfold errsForQuestion at he
  by_cases happ : questionApplies q draft = true
  · rw [if_pos happ] at he
    rcases hg : getByPointer draft q.store_path with _ | v <;> rw [hg] at he
    · split at he <;> simp_all [questionMessages]
    · rcases List.mem_append.mp he with hm | hm
      · obtain ⟨h1, h2⟩ := kindErrors_shape q v e hm
        exact ⟨h1, by simp [questionMessages, h2]⟩
      · exact rangeErrors_shape q v e hm
  · rw [if_neg happ] at he
    exact absurd he (List.not_mem_nil e)

/-- No question in the v0.1 set can produce the cross-field message at the
back-clearance path: the back-clearance question itself only emits
`Required.`, `Must be a number.`, and its two bound messages, and every
other question stores at a different path. -/
theorem no_cross_collision : ∀ q ∈ dibQuestionSetV0_1,
    ¬ (q.store_path = "/constraints/back_clearance_mm" ∧
        "Must be less than overall depth." ∈ questionMessages q) := by
  with_unfolding_all decide

theorem crossFieldErrors_path (draft : J) (e : DibValidationError)
    (he : e ∈ crossFieldErrors draft) : e.path = "/constraints/back_clearance_mm" := by
  unfold crossFieldErrors at he
  split at he
  · split at he <;> simp_all
  · simp at he

/-- C8: for a draft whose overall depth and back clearance are finite
numbers `d` and `c`, the validator reports the distinct error
`Must be less than overall depth.` at `/constraints/back_clearance_mm`
exactly when `c ≥ d` (the back clearance is not strictly less than the
depth). -/
theorem back_clearance_strictness (draft : J) (d c : ℚ)
    (hd : getByPointer draft "/overall/depth_mm" = some (J.num d))
    (hc : getByPointer draft "/constraints/back_clearance_mm" = some (J.num c)) :
    (⟨"/constraints/back_clearance_mm", "Must be less than overall depth."⟩ :
        DibValidationError) ∈ validateDibDraft draft ↔ d ≤ c := by
  unfold validateDibDraft
  rw [List.mem_append]
  have hq : (⟨"/constraints/back_clearance_mm", "Must be less than overall depth."⟩ :
      DibValidationError) ∉ dibQuestionSetV0_1.flatMap (errsForQuestion draft) := by
    intro hmem
    obtain ⟨q, hqmem, he⟩ := List.mem_flatMap.mp hmem
    obtain ⟨hpath, hmsg⟩ := errsForQuestion_shape draft q _ he
    exact no_cross_collision q hqmem ⟨hpath.symm, hmsg⟩
  unfold crossFieldErrors
  rw [hd, hc]
  dsimp only
  constructor
  · rintro (hmem | hmem)
    · exact absurd hmem hq
    · by_cases hdc : d ≤ c
      · exact hdc
      · rw [if_neg hdc] at hmem
        exact absurd hmem (List.not_mem_nil _)
  · intro hdc
    right
    rw [if_pos hdc]
    exact List.mem_singleton.mpr rfl

/-- Witness for C8 at the concrete draft `draftC8` (`depth 100`, back
clearance `150`). -/
theorem back_clearance_strictness_witness :
    (⟨"/constraints/back_clearance_mm", "Must be less than overall depth."⟩ :
        DibValidationError) ∈ validateDibDraft draftC8 :=
  (back_clearance_strictness draftC8 100 150 (by with_unfolding_all rfl)
      (by with_unfolding_all rfl)).mpr (by norm_num)

/-- The only question stored at `/drawers/lp_capacity_target` depends on
`/drawers/count ≥ 1`. -/
theorem lp_question_depends : ∀ q ∈ dibQuestionSetV0_1,
    q.store_path = "/drawers/lp_capacity_target" →
      dependsOnIsCountGte1 q.depends_on = true := by
  with_unfolding_all decide

/-- C10: a draft with `/drawers/count = 0` that omits
`/drawers/lp_capacity_target` passes validation without any error at the
LP-capacity path (the question is inapplicable because its dependency
requires a count of at least `1`), and the DIB built from it records
`drawers.lp_capacity_target = 0` — the unanswered field is silently
defaulted, not rejected. -/
theorem lp_capacity_silent_default (draft : J)
    (hcount : getByPointer draft "/drawers/count" = some (J.num 0))
    (hlp : jget (jget (some draft) "drawers") "lp_capacity_target" = Option.none) :
    (∀ e ∈ validateDibDraft draft, e.path ≠ "/drawers/lp_capacity_target") ∧
    toDibDrawersLpCapacityTarget draft = some 0 := by
  constructor
  · intro e he
    unfold validateDibDraft at he
    rcases List.mem_append.mp he with hmem | hmem
    · obtain ⟨q, hqmem, hqe⟩ := List.mem_flatMap.mp hmem
      by_cases hsp : q.store_path = "/drawers/lp_capacity_target"
      · have hb := lp_question_depends q hqmem hsp
        rcases hdep : q.depends_on with _ | dep
        · rw [hdep] at hb; simp [dependsOnIsCountGte1] at hb
        · rcases dep with ⟨pp, w⟩ | ⟨pp, n⟩
          · rw [hdep] at hb; simp [dependsOnIsCountGte1] at hb
          · rw [hdep] at hb
            simp only [dependsOnIsCountGte1, Bool.and_eq_true, beq_iff_eq] at hb
            obtain ⟨hpp, hn⟩ := hb
            subst hpp hn
            have happ : questionApplies q draft = false := by
              unfold questionApplies
              rw [hdep]
              dsimp only
              rw [hcount]
              with_unfolding_all decide
            have : errsForQuestion draft q = [] := by
              unfold errsForQuestion
              rw [happ]
              simp
            rw [this] at hqe
            exact absurd hqe (List.not_mem_nil e)
      · obtain ⟨hpath, _⟩ := errsForQuestion_shape draft q e hqe
        rw [hpath]
        exact hsp
    · rw [crossFieldErrors_path draft e hmem]
      simp
  · unfold toDibDrawersLpCapacityTarget
    rw [hlp]
    rfl

/-- Witness for C10 at the concrete complete draft `draftFull`: validation
reports no error at all and the LP-capacity target is defaulted to `0`. -/
theorem lp_capacity_silent_default_witness :
    validateDibDraft draftFull = [] ∧ toDibDrawersLpCapacityTarget draftFull = some 0 :=
  ⟨by with_unfolding_all decide,
    (lp_capacity_silent_default draftFull (by with_unfolding_all rfl) rfl).2⟩

end Craft
